import Mathlib

/-
Verification development for the market-insights analysis engine.

The JavaScript/TypeScript source is shallowly embedded over ℚ:
JS numbers become rationals, `number | undefined` fields become `Option ℚ`,
and `Number.prototype.toFixed(n)` followed by `parseFloat` is modelled as
exact half-up decimal rounding (`round2`, `round1`, `round0`).  A JS `NaN`
produced by an out-of-bounds array access is modelled as `none` in an
`Option ℚ`-valued series; arithmetic on it propagates `none`.
JS number-to-string rendering inside human-readable evidence strings is
abstracted as `toString` on ℚ (no claim inspects those dynamic strings).
-/

namespace MarketGod

/-- Model of `parseFloat(x.toFixed(2))`: round to 2 decimals, half toward +∞
(ECMAScript `toFixed` picks the larger candidate integer on ties). -/
def round2 (q : ℚ) : ℚ := (⌊q * 100 + 1/2⌋ : ℤ) / 100

/-- Model of `parseFloat(x.toFixed(1))`: round to 1 decimal, half toward +∞. -/
def round1 (q : ℚ) : ℚ := (⌊q * 10 + 1/2⌋ : ℤ) / 10

/-- Model of `x.toFixed(0)`: round to the nearest integer, half toward +∞. -/
def round0 (q : ℚ) : ℤ := ⌊q + 1/2⌋

/-- A rational that is an exact multiple of 1/100 (the range of `round2`). -/
def isCent (q : ℚ) : Prop := ∃ k : ℤ, q = (k : ℚ) / 100

/-- A rational that is an exact multiple of 1/2 (all raw fundamental
sub-scores have this shape, so 1-decimal rounding is the identity on them). -/
def isHalf (q : ℚ) : Prop := ∃ k : ℤ, q = (k : ℚ) / 2

/-- Observation record, from the `StockData` interface in `dataHelpers.ts`.
All numeric fields are optional (`undefined` = `none`); `date` is optional to
model raw, field-less entries that the sanitizer must repair. -/
structure StockData where
  date : Option String := none
  «open» : Option ℚ := none
  high : Option ℚ := none
  low : Option ℚ := none
  close : Option ℚ := none
  volume : Option ℚ := none
  sentiment : Option ℚ := none
  confidence : Option ℚ := none
  keywords : Option (List String) := none
deriving DecidableEq, Repr

/-- Fundamentals record, from the `FundamentalData` interface in
`fundamentalAnalysis.ts`. -/
structure FundamentalData where
  pe : ℚ
  eps : ℚ
  roe : ℚ
  debtToEquity : ℚ
  currentRatio : ℚ
  quickRatio : ℚ
  profitMargin : ℚ
  dividendYield : ℚ
deriving DecidableEq, Repr

/-- PE-chain adjustment of `calculateValueScore` (fundamentalAnalysis.ts,
lines 43-46), in source order: `pe < 10` → +2; elif `pe < 15` → +1;
elif `pe > 30` → −1; elif `pe > 50` → −2 (this last branch is unreachable). -/
def peAdj (d : FundamentalData) : ℚ :=
  if d.pe < 10 then 2
  else if d.pe < 15 then 1
  else if d.pe > 30 then -1
  else if d.pe > 50 then -2
  else 0

/-- EPS adjustments of `calculateValueScore` (lines 49-50): two independent
`if`s that stack. -/
def epsAdj (d : FundamentalData) : ℚ :=
  (if d.eps > 5 then 1 else 0) + (if d.eps > 10 then 1/2 else 0)

/-- Dividend-yield chain of `calculateValueScore` (lines 53-55). -/
def dyAdj (d : FundamentalData) : ℚ :=
  if d.dividendYield > 5/100 then 3/2
  else if d.dividendYield > 3/100 then 1
  else if d.dividendYield > 1/100 then 1/2
  else 0

/-- `calculateValueScore` (fundamentalAnalysis.ts, lines 38-58): baseline 5,
the three adjustment groups above, clamped to [0, 10]. -/
def calculateValueScore (d : FundamentalData) : ℚ :=
  max 0 (min 10 (5 + peAdj d + epsAdj d + dyAdj d))

/-- ROE chain of `calculateGrowthScore` (lines 65-68). -/
def roeAdj (d : FundamentalData) : ℚ :=
  if d.roe > 20/100 then 2
  else if d.roe > 15/100 then 3/2
  else if d.roe > 10/100 then 1
  else if d.roe < 5/100 then -1
  else 0

/-- Profit-margin chain of `calculateGrowthScore` (lines 71-74), in source
order: the `profitMargin < 0.05` branch precedes `profitMargin < 0`, so the
−1.5 branch is unreachable. -/
def pmAdj (d : FundamentalData) : ℚ :=
  if d.profitMargin > 20/100 then 2
  else if d.profitMargin > 10/100 then 1
  else if d.profitMargin < 5/100 then -(1/2)
  else if d.profitMargin < 0 then -(3/2)
  else 0

/-- `calculateGrowthScore` (fundamentalAnalysis.ts, lines 60-77). -/
def calculateGrowthScore (d : FundamentalData) : ℚ :=
  max 0 (min 10 (5 + roeAdj d + pmAdj d))

/-- Debt-to-equity chain of `calculateStabilityScore` (lines 84-87); the
`> 1.0` branch precedes `> 1.5`, so the −2 branch is unreachable. -/
def dteAdj (d : FundamentalData) : ℚ :=
  if d.debtToEquity < 3/10 then 2
  else if d.debtToEquity < 5/10 then 1
  else if d.debtToEquity > 1 then -1
  else if d.debtToEquity > 3/2 then -2
  else 0

/-- Current-ratio chain of `calculateStabilityScore` (lines 90-92). -/
def crAdj (d : FundamentalData) : ℚ :=
  if d.currentRatio > 2 then 3/2
  else if d.currentRatio > 3/2 then 1
  else if d.currentRatio < 1 then -1
  else 0

/-- Quick-ratio chain of `calculateStabilityScore` (lines 95-97). -/
def qrAdj (d : FundamentalData) : ℚ :=
  if d.quickRatio > 3/2 then 3/2
  else if d.quickRatio > 1 then 1
  else if d.quickRatio < 7/10 then -1
  else 0

/-- `calculateStabilityScore` (fundamentalAnalysis.ts, lines 79-100). -/
def calculateStabilityScore (d : FundamentalData) : ℚ :=
  max 0 (min 10 (5 + dteAdj d + crAdj d + qrAdj d))

/-- Result record of `calculateFundamentalScores`. -/
structure ScoreSet where
  valueScore : ℚ
  growthScore : ℚ
  stabilityScore : ℚ
  overallScore : ℚ
deriving DecidableEq, Repr

/-- `calculateFundamentalScores` (fundamentalAnalysis.ts, lines 15-36):
the three sub-scores and their arithmetic mean, each passed through
`parseFloat(x.toFixed(1))`. -/
def calculateFundamentalScores (d : FundamentalData) : ScoreSet :=
  let valueScore := calculateValueScore d
  let growthScore := calculateGrowthScore d
  let stabilityScore := calculateStabilityScore d
  let overallScore := (valueScore + growthScore + stabilityScore) / 3
  { valueScore := round1 valueScore
    growthScore := round1 growthScore
    stabilityScore := round1 stabilityScore
    overallScore := round1 overallScore }

lemma isHalf_add {a b : ℚ} (ha : isHalf a) (hb : isHalf b) : isHalf (a + b) := by
  obtain ⟨j, rfl⟩ := ha
  obtain ⟨k, rfl⟩ := hb
  exact ⟨j + k, by push_cast; ring⟩

lemma isHalf_peAdj (d : FundamentalData) : isHalf (peAdj d) := by
  unfold peAdj
  split_ifs
  exacts [⟨4, by norm_num⟩, ⟨2, by norm_num⟩, ⟨-2, by norm_num⟩, ⟨-4, by norm_num⟩,
    ⟨0, by norm_num⟩]

lemma isHalf_epsAdj (d : FundamentalData) : isHalf (epsAdj d) := by
  unfold epsAdj
  split_ifs
  exacts [⟨3, by norm_num⟩, ⟨2, by norm_num⟩, ⟨1, by norm_num⟩, ⟨0, by norm_num⟩]

lemma isHalf_dyAdj (d : FundamentalData) : isHalf (dyAdj d) := by
  unfold dyAdj
  split_ifs
  exacts [⟨3, by norm_num⟩, ⟨2, by norm_num⟩, ⟨1, by norm_num⟩, ⟨0, by norm_num⟩]

lemma isHalf_roeAdj (d : FundamentalData) : isHalf (roeAdj d) := by
  unfold roeAdj
  split_ifs
  exacts [⟨4, by norm_num⟩, ⟨3, by norm_num⟩, ⟨2, by norm_num⟩, ⟨-2, by norm_num⟩,
    ⟨0, by norm_num⟩]

lemma isHalf_pmAdj (d : FundamentalData) : isHalf (pmAdj d) := by
  unfold pmAdj
  split_ifs
  exacts [⟨4, by norm_num⟩, ⟨2, by norm_num⟩, ⟨-1, by norm_num⟩, ⟨-3, by norm_num⟩,
    ⟨0, by norm_num⟩]

lemma isHalf_dteAdj (d : FundamentalData) : isHalf (dteAdj d) := by
  unfold dteAdj
  split_ifs
  exacts [⟨4, by norm_num⟩, ⟨2, by norm_num⟩, ⟨-2, by norm_num⟩, ⟨-4, by norm_num⟩,
    ⟨0, by norm_num⟩]

lemma isHalf_crAdj (d : FundamentalData) : isHalf (crAdj d) := by
  unfold crAdj
  split_ifs
  exacts [⟨3, by norm_num⟩, ⟨2, by norm_num⟩, ⟨-2, by norm_num⟩, ⟨0, by norm_num⟩]

lemma isHalf_qrAdj (d : FundamentalData) : isHalf (qrAdj d) := by
  unfold qrAdj
  split_ifs
  exacts [⟨3, by norm_num⟩, ⟨2, by norm_num⟩, ⟨-2, by norm_num⟩, ⟨0, by norm_num⟩]

lemma isHalf_clamp {x : ℚ} (h : isHalf x) : isHalf (max 0 (min 10 x)) := by
  rcases max_choice 0 (min 10 x) with h1 | h1 <;> rw [h1]
  · exact ⟨0, by norm_num⟩
  · rcases min_choice 10 x with h2 | h2 <;> rw [h2]
    · exact ⟨20, by norm_num⟩
    · exact h

lemma isHalf_valueScore (d : FundamentalData) : isHalf (calculateValueScore d) :=
  isHalf_clamp (isHalf_add (isHalf_add (isHalf_add ⟨10, by norm_num⟩ (isHalf_peAdj d))
    (isHalf_epsAdj d)) (isHalf_dyAdj d))

lemma isHalf_growthScore (d : FundamentalData) : isHalf (calculateGrowthScore d) :=
  isHalf_clamp (isHalf_add (isHalf_add ⟨10, by norm_num⟩ (isHalf_roeAdj d)) (isHalf_pmAdj d))

lemma isHalf_stabilityScore (d : FundamentalData) : isHalf (calculateStabilityScore d) :=
  isHalf_clamp (isHalf_add (isHalf_add (isHalf_add ⟨10, by norm_num⟩ (isHalf_dteAdj d))
    (isHalf_crAdj d)) (isHalf_qrAdj d))

lemma round1_eq_of_isHalf {q : ℚ} (h : isHalf q) : round1 q = q := by
  obtain ⟨k, rfl⟩ := h
  unfold round1
  have h1 : (k : ℚ) / 2 * 10 + 1/2 = (1/2 : ℚ) + (5 * k : ℤ) := by push_cast; ring
  rw [h1, Int.floor_add_int]
  have h2 : ⌊(1/2 : ℚ)⌋ = 0 := by norm_num
  rw [h2]
  push_cast
  ring

lemma clamp_nonneg (x : ℚ) : 0 ≤ max 0 (min 10 x) := le_max_left 0 _

lemma clamp_le_ten (x : ℚ) : max 0 (min 10 x) ≤ 10 :=
  max_le (by norm_num) (min_le_left 10 x)

lemma valueScore_proj (d : FundamentalData) :
    (calculateFundamentalScores d).valueScore = calculateValueScore d := by
  simp only [calculateFundamentalScores]
  exact round1_eq_of_isHalf (isHalf_valueScore d)

lemma growthScore_proj (d : FundamentalData) :
    (calculateFundamentalScores d).growthScore = calculateGrowthScore d := by
  simp only [calculateFundamentalScores]
  exact round1_eq_of_isHalf (isHalf_growthScore d)

lemma stabilityScore_proj (d : FundamentalData) :
    (calculateFundamentalScores d).stabilityScore = calculateStabilityScore d := by
  simp only [calculateFundamentalScores]
  exact round1_eq_of_isHalf (isHalf_stabilityScore d)

/-- C6: for every real-valued fundamentals record, the three sub-scores
returned by `calculateFundamentalScores` each lie in [0, 10], and the
returned overall score equals the arithmetic mean of the three returned
sub-scores rounded to one decimal. -/
theorem fundamentalScores_bounded_and_mean (d : FundamentalData) :
    (0 ≤ (calculateFundamentalScores d).valueScore ∧
      (calculateFundamentalScores d).valueScore ≤ 10) ∧
    (0 ≤ (calculateFundamentalScores d).growthScore ∧
      (calculateFundamentalScores d).growthScore ≤ 10) ∧
    (0 ≤ (calculateFundamentalScores d).stabilityScore ∧
      (calculateFundamentalScores d).stabilityScore ≤ 10) ∧
    (calculateFundamentalScores d).overallScore =
      round1 (((calculateFundamentalScores d).valueScore +
        (calculateFundamentalScores d).growthScore +
        (calculateFundamentalScores d).stabilityScore) / 3) := by
  rw [valueScore_proj, growthScore_proj, stabilityScore_proj]
  refine ⟨⟨clamp_nonneg _, clamp_le_ten _⟩, ⟨clamp_nonneg _, clamp_le_ten _⟩,
    ⟨clamp_nonneg _, clamp_le_ten _⟩, ?_⟩
  simp only [calculateFundamentalScores]

/-- Fundamentals used to exercise the dead `pe > 50` branch: pe = 60, with
the other value inputs neutral (eps = 4 ≤ 5, dividendYield = 0.01). -/
def fdPe60 : FundamentalData :=
  { pe := 60, eps := 4, roe := 3/20, debtToEquity := 9/20, currentRatio := 21/10,
    quickRatio := 17/10, profitMargin := 7/50, dividendYield := 1/100 }

/-- C2: the code checks `pe > 30` before `pe > 50`, so a PE of 60 takes the
−1 branch (the −2 branch is unreachable) and the value score is 4, not the 3
the spec's evaluation order would give. -/
theorem valueScore_pe60_takes_minus_one :
    peAdj fdPe60 = -1 ∧ (calculateFundamentalScores fdPe60).valueScore = 4 ∧
      (calculateFundamentalScores fdPe60).valueScore ≠ 3 := by
  have h1 : peAdj fdPe60 = -1 := by norm_num [peAdj, fdPe60]
  have h2 : (calculateFundamentalScores fdPe60).valueScore = 4 := by
    rw [valueScore_proj]
    unfold calculateValueScore
    rw [h1]
    norm_num [epsAdj, dyAdj, fdPe60, max_def, min_def]
  refine ⟨h1, h2, ?_⟩
  rw [h2]
  norm_num

/-- Fundamentals used to exercise the dead `profitMargin < 0` branch:
profitMargin = −0.1, with a neutral ROE of 0.07. -/
def fdNegMargin : FundamentalData :=
  { pe := 84/5, eps := 21/5, roe := 7/100, debtToEquity := 9/20, currentRatio := 21/10,
    quickRatio := 17/10, profitMargin := -(1/10), dividendYield := 1/40 }

/-- C3: the code checks `profitMargin < 0.05` before `profitMargin < 0`, so a
negative margin takes the −0.5 branch (the −1.5 branch is unreachable) and
the growth score is 4.5, not the 3.5 the spec's evaluation order would give. -/
theorem growthScore_negative_margin_takes_minus_half :
    pmAdj fdNegMargin = -(1/2) ∧ (calculateFundamentalScores fdNegMargin).growthScore = 9/2 ∧
      (calculateFundamentalScores fdNegMargin).growthScore ≠ 7/2 := by
  have h1 : pmAdj fdNegMargin = -(1/2) := by norm_num [pmAdj, fdNegMargin]
  have h2 : (calculateFundamentalScores fdNegMargin).growthScore = 9/2 := by
    rw [growthScore_proj]
    unfold calculateGrowthScore
    rw [h1]
    norm_num [roeAdj, fdNegMargin, max_def, min_def]
  refine ⟨h1, h2, ?_⟩
  rw [h2]
  norm_num

/-- Per-element body of `ensureValidData` (dataHelpers.ts, lines 55-76).
A `none` input models a null/non-object entry and becomes the minimal
placeholder; otherwise the spread copies every field, `date` falls back to
today when missing or empty (JS `item.date || today`), and `close` falls
back to `sentiment`, then to 0. -/
def sanitizeItem (today : String) : Option StockData → StockData
  | none => { date := some today, close := some 0 }
  | some item =>
    { item with
      date := (match item.date with
               | none => some today
               | some s => if s = "" then some today else some s)
      close := (match item.close with
                | some v => some v
                | none => match item.sentiment with
                          | some s => some s
                          | none => some 0) }

/-- `ensureValidData` (dataHelpers.ts, lines 49-77): elementwise repair of a
raw observation sequence.  The current date is passed in as `today`
(modelling `new Date().toISOString().split('T')[0]`). -/
def ensureValidData (today : String) (data : List (Option StockData)) : List StockData :=
  data.map (sanitizeItem today)

/-- The close value the sanitizer assigns: keep a defined close, else copy a
defined sentiment, else 0; a null entry gets 0. -/
def closePolicy : Option StockData → ℚ
  | none => 0
  | some it => it.close.getD (it.sentiment.getD 0)

lemma sanitizeItem_date_isSome (today : String) (x : Option StockData) :
    (sanitizeItem today x).date.isSome = true := by
  cases x with
  | none => rfl
  | some item =>
    cases h : item.date with
    | none => simp [sanitizeItem, h]
    | some s => by_cases hs : s = "" <;> simp [sanitizeItem, h, hs]

lemma sanitizeItem_close (today : String) (x : Option StockData) :
    (sanitizeItem today x).close = some (closePolicy x) := by
  cases x with
  | none => rfl
  | some item =>
    cases hc : item.close with
    | some v => simp [sanitizeItem, closePolicy, hc]
    | none =>
      cases hs : item.sentiment with
      | none => simp [sanitizeItem, closePolicy, hc, hs]
      | some s => simp [sanitizeItem, closePolicy, hc, hs]

/-- C7: `ensureValidData` is total, preserves length and order, and gives
every output element a defined date and a defined close chosen by the
keep-close / copy-sentiment / zero policy (null entries become the
today-dated zero placeholder). -/
theorem ensureValidData_total_and_policy (today : String) (data : List (Option StockData)) :
    (ensureValidData today data).length = data.length ∧
    ∀ i, i < data.length →
      ∃ o, (ensureValidData today data).get? i = some o ∧
        o.date.isSome = true ∧
        o.close = some (closePolicy ((data.get? i).getD none)) ∧
        ((data.get? i).getD none = none →
          o = { date := some today, close := some 0 }) := by
  constructor
  · simp [ensureValidData]
  · intro i hi
    have hx : data.get? i = some (data.get ⟨i, hi⟩) := List.get?_eq_get hi
    refine ⟨sanitizeItem today (data.get ⟨i, hi⟩), ?_, ?_, ?_, ?_⟩
    · rw [ensureValidData, List.get?_map, hx]
      rfl
    · exact sanitizeItem_date_isSome today _
    · rw [hx]
      exact sanitizeItem_close today _
    · rw [hx]
      intro h0
      rw [Option.getD_some] at h0
      rw [h0]
      rfl

/-- Witness for C7 at a concrete input: a single null entry becomes the
placeholder with a defined date and close 0. -/
theorem ensureValidData_policy_witness :
    ∃ o, (ensureValidData "2024-01-01" [none]).get? 0 = some o ∧
      o.date.isSome = true ∧
      o.close = some (closePolicy ((([none] : List (Option StockData)).get? 0).getD none)) ∧
      ((([none] : List (Option StockData)).get? 0).getD none = none →
        o = { date := some "2024-01-01", close := some 0 }) :=
  (ensureValidData_total_and_policy "2024-01-01" [none]).2 0 (by simp)

/-- An element whose date is defined but empty: the sanitizer replaces it. -/
def emptyDateItem : StockData := { date := some "", close := some 5 }

/-- C10 counterexample: an element with the defined date `""` does not keep
its date — `ensureValidData` replaces it with today's date, so `date` is not
left unchanged whenever it is defined. -/
theorem ensureValidData_empty_date_replaced :
    (ensureValidData "2099-01-02" [some emptyDateItem]).map StockData.date =
      [some "2099-01-02"] ∧ emptyDateItem.date = some "" ∧
      (some "" : Option String) ≠ some "2099-01-02" := by
  refine ⟨?_, rfl, by simp⟩
  simp [ensureValidData, sanitizeItem, emptyDateItem]

/-- C10 (amended): for every non-null element, all fields other than `date`
and `close` are preserved exactly, a defined `close` is kept, and a defined
non-empty `date` is kept. -/
theorem ensureValidData_frame (today : String) (data : List (Option StockData)) (i : ℕ)
    (item : StockData) (h : data.get? i = some (some item)) :
    ∃ o, (ensureValidData today data).get? i = some o ∧
      o.«open» = item.«open» ∧ o.high = item.high ∧ o.low = item.low ∧
      o.volume = item.volume ∧ o.sentiment = item.sentiment ∧
      o.confidence = item.confidence ∧ o.keywords = item.keywords ∧
      (∀ v, item.close = some v → o.close = some v) ∧
      (∀ s, item.date = some s → s ≠ "" → o.date = some s) := by
  refine ⟨sanitizeItem today (some item), ?_, rfl, rfl, rfl, rfl, rfl, rfl, rfl, ?_, ?_⟩
  · rw [ensureValidData, List.get?_map, h]
    rfl
  · intro v hv
    simp [sanitizeItem, hv]
  · intro s hs hne
    simp [sanitizeItem, hs, hne]

/-- A fully-populated element used to witness the frame property. -/
def framedItem : StockData :=
  { date := some "2020-05-05", «open» := some 1, high := some 2, low := some 3,
    close := some 7, volume := some 100, sentiment := some (1/2),
    confidence := some (9/10), keywords := some ["growth"] }

/-- Witness for the amended C10 at a concrete input. -/
theorem ensureValidData_frame_witness :
    ∃ o, (ensureValidData "2024-01-01" [some framedItem]).get? 0 = some o ∧
      o.«open» = framedItem.«open» ∧ o.high = framedItem.high ∧ o.low = framedItem.low ∧
      o.volume = framedItem.volume ∧ o.sentiment = framedItem.sentiment ∧
      o.confidence = framedItem.confidence ∧ o.keywords = framedItem.keywords ∧
      (∀ v, framedItem.close = some v → o.close = some v) ∧
      (∀ s, framedItem.date = some s → s ≠ "" → o.date = some s) :=
  ensureValidData_frame "2024-01-01" [some framedItem] 0 framedItem rfl

/-- `calculateSMA` (technicalAnalysis.ts, lines 4-29): for each window of
`period` consecutive points, average the defined closes of the window and
round to 2 decimals; a window with no defined close is skipped; input
shorter than the period yields the empty series. -/
def calculateSMA (data : List StockData) (period : ℕ) : List ℚ :=
  if data.length < period then []
  else
    (List.range (data.length - period + 1)).filterMap (fun t =>
      let window := (data.drop t).take period
      let valids := window.filterMap StockData.close
      if valids.length > 0 then some (round2 (valids.sum / (valids.length : ℚ))) else none)

/-- Consecutive close differences of `calculateRSI` (technicalAnalysis.ts,
lines 41-49): a pair with any undefined close contributes a zero change. -/
def rsiChanges (data : List StockData) : List ℚ :=
  (List.range (data.length - 1)).map (fun i =>
    match (data.get? i).bind StockData.close, (data.get? (i + 1)).bind StockData.close with
    | some a, some b => b - a
    | _, _ => 0)

/-- `calculateRSI` (technicalAnalysis.ts, lines 31-69): empty when
`data.length ≤ period`; otherwise, for each window of `period` consecutive
changes, average gains and (absolute) losses over the full period and emit
100 when the average loss is 0, else `100 − 100/(1 + rs)` rounded to
2 decimals. -/
def calculateRSI (data : List StockData) (period : ℕ) : List ℚ :=
  if data.length ≤ period then []
  else
    let changes := rsiChanges data
    (List.range (changes.length + 1 - period)).map (fun t =>
      let slice := (changes.drop t).take period
      let gains := slice.filter (fun c => decide (0 < c))
      let losses := (slice.filter (fun c => decide (c < 0))).map (fun c => |c|)
      let avgGain := gains.sum / (period : ℚ)
      let avgLoss := losses.sum / (period : ℚ)
      if avgLoss = 0 then 100 else round2 (100 - 100 / (1 + avgGain / avgLoss)))

/-- Recursive tail of `calculateEMA` (technicalAnalysis.ts, lines 112-114):
each value is `x·k + prev·(1−k)` rounded to 2 decimals at every step. -/
def emaSteps (k : ℚ) (prev : ℚ) : List ℚ → List ℚ
  | [] => []
  | x :: xs =>
    round2 (x * k + prev * (1 - k)) :: emaSteps k (round2 (x * k + prev * (1 - k))) xs

/-- `calculateEMA` (technicalAnalysis.ts, lines 99-117): the seed is the sum
of the first `period` values (all of them when the input is shorter) divided
by `period` and rounded to 2 decimals; the remaining values are the rounded
exponential recurrence with `k = 2/(period+1)`. -/
def calculateEMA (data : List ℚ) (period : ℕ) : List ℚ :=
  let seed := round2 ((data.take period).sum / (period : ℚ))
  seed :: emaSteps (2 / ((period : ℚ) + 1)) seed (data.drop period)

/-- JS array access at a possibly negative index: `undefined` (modelled as
`none`) outside the bounds. -/
def listGetZ (l : List ℚ) (j : ℤ) : Option ℚ :=
  if 0 ≤ j then l.get? j.toNat else none

/-- Close prices extracted in `calculateMACD` (technicalAnalysis.ts,
line 73): `d.close || 0`. -/
def macdClosePrices (data : List StockData) : List ℚ :=
  data.map (fun d => d.close.getD 0)

/-- MACD line (technicalAnalysis.ts, lines 80-85).  The code indexes
`ema26[i + (ema26.length - ema12.length)]`; that offset is negative whenever
the input is long enough, so the early entries read out of bounds and become
`NaN` (modelled as `none`). -/
def macdLine (data : List StockData) : List (Option ℚ) :=
  let ema12 := calculateEMA (macdClosePrices data) 12
  let ema26 := calculateEMA (macdClosePrices data) 26
  let diff : ℤ := (ema26.length : ℤ) - (ema12.length : ℤ)
  (List.range ema12.length).filterMap (fun (i : ℕ) =>
    if diff ≤ (i : ℤ) then
      some ((listGetZ ema26 ((i : ℤ) + diff)).map (fun b => round2 (ema12.getD i 0 - b)))
    else none)

/-- Signal line (technicalAnalysis.ts, line 88): a 9-period EMA of the MACD
line; inside `calculateEMA` every value passes through `x || 0`, which turns
a `NaN` entry into 0. -/
def macdSignal (data : List StockData) : List ℚ :=
  calculateEMA ((macdLine data).map (fun o => o.getD 0)) 9

/-- Histogram (technicalAnalysis.ts, lines 91-94): one entry per signal
value, `macd[i + (macd.length − signal.length)] − signal[i]` rounded to
2 decimals, `NaN` (`none`) propagating from the MACD entry. -/
def macdHistogram (data : List StockData) : List (Option ℚ) :=
  (List.range (macdSignal data).length).map (fun i =>
    (((macdLine data).get? (i + ((macdLine data).length - (macdSignal data).length))).getD
      none).map (fun a => round2 (a - (macdSignal data).getD i 0)))

/-- `calculateMACD` (technicalAnalysis.ts, lines 71-97). -/
def calculateMACD (data : List StockData) :
    List (Option ℚ) × List ℚ × List (Option ℚ) :=
  (macdLine data, macdSignal data, macdHistogram data)

lemma round2_isCent (q : ℚ) : isCent (round2 q) := ⟨⌊q * 100 + 1/2⌋, rfl⟩

lemma round2_eq_of_isCent {q : ℚ} (h : isCent q) : round2 q = q := by
  obtain ⟨k, rfl⟩ := h
  unfold round2
  have h1 : (k : ℚ) / 100 * 100 + 1/2 = (1/2 : ℚ) + (k : ℤ) := by ring
  rw [h1, Int.floor_add_int]
  have h2 : ⌊(1/2 : ℚ)⌋ = 0 := by norm_num
  rw [h2]
  push_cast
  ring

lemma isCent_sub {a b : ℚ} (ha : isCent a) (hb : isCent b) : isCent (a - b) := by
  obtain ⟨j, rfl⟩ := ha
  obtain ⟨k, rfl⟩ := hb
  exact ⟨j - k, by push_cast; ring⟩

lemma emaSteps_isCent (k : ℚ) (l : List ℚ) :
    ∀ (prev : ℚ), ∀ x ∈ emaSteps k prev l, isCent x := by
  induction l with
  | nil => intro prev x hx; simp [emaSteps] at hx
  | cons a as ih =>
    intro prev x hx
    simp only [emaSteps, List.mem_cons] at hx
    rcases hx with rfl | hx
    · exact round2_isCent _
    · exact ih _ x hx

lemma calculateEMA_isCent (l : List ℚ) (p : ℕ) : ∀ x ∈ calculateEMA l p, isCent x := by
  intro x hx
  simp only [calculateEMA, List.mem_cons] at hx
  rcases hx with rfl | hx
  · exact round2_isCent _
  · exact emaSteps_isCent _ _ _ x hx

lemma macdLine_isCent (data : List StockData) :
    ∀ o ∈ macdLine data, ∀ a, o = some a → isCent a := by
  intro o ho a ha
  subst ha
  simp only [macdLine, List.mem_filterMap, List.mem_range] at ho
  obtain ⟨i, hi, hg⟩ := ho
  split at hg
  · rw [Option.some_inj] at hg
    rcases Option.map_eq_some'.mp hg with ⟨b, _, hb⟩
    rw [← hb]
    exact round2_isCent _
  · exact absurd hg (by simp)

lemma getD_mem_of_lt {l : List ℚ} {i : ℕ} (h : i < l.length) : l.getD i 0 ∈ l := by
  rw [List.getD_eq_get?, List.get?_eq_get h]
  exact List.get_mem l i h

/-- C8: the histogram returned by `calculateMACD` has the same length as the
signal line, and each histogram entry is exactly the aligned MACD value
minus the signal value — the stated 2-decimal rounding is the identity there
because both operands are already 2-decimal values (an out-of-range MACD
entry is `NaN` = `none`, and the entry is then `NaN` too). -/
theorem macd_histogram_alignment (data : List StockData) :
    calculateMACD data = (macdLine data, macdSignal data, macdHistogram data) ∧
    (macdHistogram data).length = (macdSignal data).length ∧
    ∀ i, i < (macdSignal data).length →
      (macdHistogram data).get? i =
        some ((((macdLine data).get? (i + ((macdLine data).length -
          (macdSignal data).length))).getD none).map
          (fun a => a - (macdSignal data).getD i 0)) := by
  refine ⟨rfl, by simp [macdHistogram], ?_⟩
  intro i hi
  rw [macdHistogram, List.get?_map, List.get?_range hi]
  rw [Option.map_some']
  congr 1
  rcases hj : ((macdLine data).get? (i + ((macdLine data).length -
      (macdSignal data).length))).getD none with _ | a
  · simp
  · simp only [Option.map_some']
    congr 1
    have ha : isCent a := by
      rcases hmj : (macdLine data).get? (i + ((macdLine data).length -
          (macdSignal data).length)) with _ | o
      · rw [hmj] at hj
        simp at hj
      · rw [hmj] at hj
        simp only [Option.getD_some] at hj
        subst hj
        exact macdLine_isCent data _ (List.get?_mem hmj) a rfl
    have hs : isCent ((macdSignal data).getD i 0) :=
      calculateEMA_isCent _ _ _ (getD_mem_of_lt hi)
    exact round2_eq_of_isCent (isCent_sub ha hs)

/-- Witness for C8 at the empty observation sequence (signal length is 1, so
index 0 is in range). -/
theorem macd_histogram_alignment_witness :
    (macdHistogram ([] : List StockData)).get? 0 =
      some ((((macdLine ([] : List StockData)).get? (0 + ((macdLine ([] : List StockData)).length -
        (macdSignal ([] : List StockData)).length))).getD none).map
        (fun a => a - (macdSignal ([] : List StockData)).getD 0 0)) :=
  (macd_histogram_alignment []).2.2 0 (by simp [macdSignal, calculateEMA])

lemma round2_zero : round2 0 = 0 := by
  unfold round2
  norm_num

/-- C9: `calculateEMA` never returns the empty series; on input shorter than
the period it returns the single value `(sum of available values)/period`
rounded to two decimals — in particular `[0]` for empty input — while
`calculateSMA` and `calculateRSI` return the empty series for too-short
input. -/
theorem ema_short_input_behavior (data : List ℚ) (sd : List StockData) (period : ℕ)
    (_hp : 1 ≤ period) :
    calculateEMA data period ≠ [] ∧
    (data.length < period → calculateEMA data period = [round2 (data.sum / (period : ℚ))]) ∧
    calculateEMA [] period = [0] ∧
    (sd.length < period → calculateSMA sd period = []) ∧
    (sd.length ≤ period → calculateRSI sd period = []) := by
  refine ⟨by simp [calculateEMA], ?_, ?_, ?_, ?_⟩
  · intro h
    have h1 : data.take period = data := List.take_of_length_le (le_of_lt h)
    have h2 : data.drop period = [] := List.drop_eq_nil_of_le (le_of_lt h)
    simp [calculateEMA, h1, h2, emaSteps]
  · simp [calculateEMA, emaSteps, round2_zero]
  · intro h
    simp [calculateSMA, h]
  · intro h
    simp [calculateRSI, h]

/-- Witness for C9: the empty list is shorter than period 14 and yields the
single seeded value. -/
theorem ema_short_input_witness :
    calculateEMA ([] : List ℚ) 14 = [round2 (([] : List ℚ).sum / (14 : ℚ))] :=
  (ema_short_input_behavior [] [] 14 (by norm_num)).2.1 (by simp)

/-- The five-way recommendation enumeration. -/
inductive Rec where
  | strongBuy
  | buy
  | hold
  | sell
  | strongSell
deriving DecidableEq, Repr

/-- Lowercased display form used in the summary (`recommendation.toLowerCase()`). -/
def recLower : Rec → String
  | .strongBuy => "strong buy"
  | .buy => "buy"
  | .hold => "hold"
  | .sell => "sell"
  | .strongSell => "strong sell"

/-- Result record of `generateRecommendation` (analysisUtils.ts). -/
structure RecommendationResult where
  recommendation : Rec
  confidence : ℚ
  positivePoints : List String
  negativePoints : List String
  summary : String
deriving DecidableEq, Repr

/-- Early return of `generateRecommendation` for missing/empty input
(analysisUtils.ts, lines 427-435). -/
def insufficientResult : RecommendationResult :=
  { recommendation := .hold
    confidence := 1/2
    positivePoints := []
    negativePoints := ["Insufficient data for analysis"]
    summary := "Unable to analyze due to insufficient data." }

/-- Catch-all fallback of `generateRecommendation` (analysisUtils.ts,
lines 551-560), returned if any step of the analysis were to throw. -/
def errorFallback : RecommendationResult :=
  { recommendation := .hold
    confidence := 1/2
    positivePoints := []
    negativePoints := ["Error during analysis"]
    summary := "An error occurred while analyzing the data." }

/-- Recent price change percentage (analysisUtils.ts, lines 446-457): over
the trailing window of `min(20, N)` points, `(last/first − 1)·100` when both
endpoint closes are defined and the first is nonzero, else 0. -/
def priceChangeOf (td : List StockData) : ℚ :=
  let periodLength := min 20 td.length
  let recentData := td.drop (td.length - periodLength)
  if 2 ≤ recentData.length then
    match (recentData.get? (recentData.length - 1)).bind StockData.close,
        (recentData.get? 0).bind StockData.close with
    | some lastC, some firstC => if firstC ≠ 0 then (lastC / firstC - 1) * 100 else 0
    | _, _ => 0
  else 0

/-- RSI value used by the engine (analysisUtils.ts, lines 460-464): the last
RSI value over the full sequence with period 14, defaulting to 50 when the
RSI series is empty. -/
def rsiUsed (td : List StockData) : ℚ :=
  (calculateRSI td 14).getLast?.getD 50

/-- Evidence accumulator state: positive points, negative points, confidence. -/
structure Factors where
  pos : List String
  neg : List String
  conf : ℚ
deriving DecidableEq, Repr

/-- Evidence/confidence accumulation of `generateRecommendation`
(analysisUtils.ts, lines 468-526): starting from confidence 0.5, the six
adjustment groups applied in source order, each appending its evidence
string. -/
def analysisFactors (td : List StockData) (fd : FundamentalData) : Factors :=
  let overallScore := (calculateFundamentalScores fd).overallScore
  let priceChange := priceChangeOf td
  let periodLength := min 20 td.length
  let rsi := rsiUsed td
  let f0 : Factors := ⟨[], [], 1/2⟩
  let f1 :=
    if overallScore > 7 then
      { f0 with pos := f0.pos ++ ["Strong fundamental indicators"], conf := f0.conf + 1/10 }
    else if overallScore > 5 then
      { f0 with pos := f0.pos ++ ["Decent fundamental health"], conf := f0.conf + 1/20 }
    else if overallScore < 4 then
      { f0 with neg := f0.neg ++ ["Weak fundamental indicators"], conf := f0.conf - 1/10 }
    else f0
  let f2 :=
    if fd.pe < 15 ∧ fd.pe > 0 then
      { f1 with
        pos := f1.pos ++ ["Attractive P/E ratio of " ++ toString fd.pe]
        conf := f1.conf + 1/20 }
    else if fd.pe > 30 then
      { f1 with
        neg := f1.neg ++ ["High P/E ratio of " ++ toString fd.pe]
        conf := f1.conf - 1/20 }
    else f1
  let f3 :=
    if fd.debtToEquity < 1/2 then
      { f2 with pos := f2.pos ++ ["Low debt-to-equity ratio"], conf := f2.conf + 1/20 }
    else if fd.debtToEquity > 6/5 then
      { f2 with neg := f2.neg ++ ["High debt-to-equity ratio"], conf := f2.conf - 1/20 }
    else f2
  let f4 :=
    if fd.dividendYield > 4/100 then
      { f3 with
        pos := f3.pos ++ ["Strong dividend yield of " ++
          toString (round2 (fd.dividendYield * 100)) ++ "%"]
        conf := f3.conf + 1/20 }
    else f3
  let f5 :=
    if priceChange > 10 then
      { f4 with pos := f4.pos ++ ["Strong recent uptrend (" ++ toString (round2 priceChange) ++
          "% in " ++ toString periodLength ++ " days)"], conf := f4.conf + 1/10 }
    else if priceChange > 5 then
      { f4 with pos := f4.pos ++ ["Positive price momentum (" ++ toString (round2 priceChange) ++
          "% in " ++ toString periodLength ++ " days)"], conf := f4.conf + 1/20 }
    else if priceChange < -10 then
      { f4 with neg := f4.neg ++ ["Sharp recent decline (" ++ toString (round2 priceChange) ++
          "% in " ++ toString periodLength ++ " days)"], conf := f4.conf - 1/10 }
    else if priceChange < -5 then
      { f4 with neg := f4.neg ++ ["Negative price action (" ++ toString (round2 priceChange) ++
          "% in " ++ toString periodLength ++ " days)"], conf := f4.conf - 1/20 }
    else f4
  let f6 :=
    if rsi > 70 then
      { f5 with neg := f5.neg ++ ["Overbought conditions (RSI: " ++ toString (round1 rsi) ++
          ")"], conf := f5.conf - 1/10 }
    else if rsi < 30 then
      { f5 with pos := f5.pos ++ ["Oversold conditions (RSI: " ++ toString (round1 rsi) ++
          ")"], conf := f5.conf + 1/10 }
    else f5
  f6

/-- Composite directional score (analysisUtils.ts, line 529). -/
def recommendationScore (td : List StockData) (fd : FundamentalData) : ℚ :=
  (calculateFundamentalScores fd).overallScore / 10 + priceChangeOf td / 100 -
    (if rsiUsed td > 70 then 1/5 else 0) + (if rsiUsed td < 30 then 1/5 else 0)

/-- Score-to-recommendation mapping (analysisUtils.ts, lines 531-535). -/
def recommendationOf (td : List StockData) (fd : FundamentalData) : Rec :=
  if recommendationScore td fd > 4/5 then .strongBuy
  else if recommendationScore td fd > 3/10 then .buy
  else if recommendationScore td fd < -(4/5) then .strongSell
  else if recommendationScore td fd < -(3/10) then .sell
  else .hold

/-- Main analysis path of `generateRecommendation` (analysisUtils.ts,
lines 437-550), taken when both inputs are present and the data nonempty. -/
def mainResult (td : List StockData) (fd : FundamentalData) : RecommendationResult :=
  let f := analysisFactors td fd
  let confidence := max (3/10) (min (9/10) f.conf)
  { recommendation := recommendationOf td fd
    confidence := confidence
    positivePoints := f.pos
    negativePoints := f.neg
    summary := "Based on " ++ toString f.pos.length ++ " positive and " ++
      toString f.neg.length ++ " negative factors, we " ++ recLower (recommendationOf td fd) ++
      " this stock with " ++ toString (round0 (confidence * 100)) ++ "% confidence." }

/-- `generateRecommendation` (analysisUtils.ts, lines 416-561): the guard
`!technicalData || technicalData.length === 0 || !fundamentalData` yields the
insufficiency result, otherwise the main path runs. -/
def generateRecommendation (technicalData : Option (List StockData))
    (fundamentalData : Option FundamentalData) : RecommendationResult :=
  match technicalData, fundamentalData with
  | some (x :: xs), some fd => mainResult (x :: xs) fd
  | _, _ => insufficientResult

lemma rec_mem_enum (r : Rec) :
    r ∈ [Rec.strongBuy, Rec.buy, Rec.hold, Rec.sell, Rec.strongSell] := by
  cases r <;> simp

lemma insufficient_conf_bounds :
    3/10 ≤ insufficientResult.confidence ∧ insufficientResult.confidence ≤ 9/10 := by
  norm_num [insufficientResult]

/-- C4: for every input, `generateRecommendation` returns a confidence in
[0.3, 0.9] and a recommendation drawn from the five-element enumeration;
the internal catch-all fallback result satisfies the same bounds. -/
theorem recommendation_confidence_bounded (td : Option (List StockData))
    (fd : Option FundamentalData) :
    (3/10 ≤ (generateRecommendation td fd).confidence ∧
      (generateRecommendation td fd).confidence ≤ 9/10 ∧
      (generateRecommendation td fd).recommendation ∈
        [Rec.strongBuy, Rec.buy, Rec.hold, Rec.sell, Rec.strongSell]) ∧
    (3/10 ≤ errorFallback.confidence ∧ errorFallback.confidence ≤ 9/10 ∧
      errorFallback.recommendation ∈
        [Rec.strongBuy, Rec.buy, Rec.hold, Rec.sell, Rec.strongSell]) := by
  constructor
  · rcases td with _ | (_ | ⟨x, xs⟩)
    · exact ⟨insufficient_conf_bounds.1, insufficient_conf_bounds.2, rec_mem_enum _⟩
    · exact ⟨insufficient_conf_bounds.1, insufficient_conf_bounds.2, rec_mem_enum _⟩
    · rcases fd with _ | f
      · exact ⟨insufficient_conf_bounds.1, insufficient_conf_bounds.2, rec_mem_enum _⟩
      · refine ⟨?_, ?_, rec_mem_enum _⟩
        · show 3/10 ≤ (mainResult (x :: xs) f).confidence
          simp only [mainResult]
          exact le_max_left _ _
        · show (mainResult (x :: xs) f).confidence ≤ 9/10
          simp only [mainResult]
          exact max_le (by norm_num) (min_le_left _ _)
  · exact ⟨by norm_num [errorFallback], by norm_num [errorFallback], rec_mem_enum _⟩

/-- C5: a missing or empty observation sequence, or missing fundamentals,
yields exactly the HOLD / 0.5 / insufficiency record with its fixed summary
(the embedded function is total, so no exception can escape). -/
theorem insufficient_input_result (td : Option (List StockData))
    (fd : Option FundamentalData) (h : td = none ∨ td = some [] ∨ fd = none) :
    generateRecommendation td fd =
      { recommendation := Rec.hold
        confidence := 1/2
        positivePoints := []
        negativePoints := ["Insufficient data for analysis"]
        summary := "Unable to analyze due to insufficient data." } := by
  rcases h with rfl | rfl | rfl
  · rfl
  · rfl
  · rcases td with _ | (_ | ⟨x, xs⟩) <;> rfl

/-- Witness for C5 at a concrete input. -/
theorem insufficient_input_witness :
    generateRecommendation none none =
      { recommendation := Rec.hold
        confidence := 1/2
        positivePoints := []
        negativePoints := ["Insufficient data for analysis"]
        summary := "Unable to analyze due to insufficient data." } :=
  insufficient_input_result none none (Or.inl rfl)

/-- A flat observation: close 50 and nothing else of note. -/
def flatPoint : StockData := { date := some "2024-01-01", close := some 50 }

/-- The spec's 10-point flat sequence. -/
def flatData : List StockData :=
  [flatPoint, flatPoint, flatPoint, flatPoint, flatPoint,
   flatPoint, flatPoint, flatPoint, flatPoint, flatPoint]

/-- The spec's fundamentals record: pe 16.8, eps 4.2, roe 0.15,
debtToEquity 0.45, currentRatio 2.1, quickRatio 1.7, profitMargin 0.14,
dividendYield 0.025. -/
def specFundamentals : FundamentalData :=
  { pe := 84/5, eps := 21/5, roe := 3/20, debtToEquity := 9/20, currentRatio := 21/10,
    quickRatio := 17/10, profitMargin := 7/50, dividendYield := 1/40 }

lemma flat_rsi_empty : calculateRSI flatData 14 = [] := by
  simp [calculateRSI, flatData]

lemma flat_rsiUsed : rsiUsed flatData = 50 := by
  simp [rsiUsed, flat_rsi_empty]

lemma flat_priceChange : priceChangeOf flatData = 0 := by
  norm_num [priceChangeOf, flatData, flatPoint, min_def, List.get?]

lemma spec_overallScore :
    (calculateFundamentalScores specFundamentals).overallScore = 36/5 := by
  have hv : calculateValueScore specFundamentals = 11/2 := by
    norm_num [calculateValueScore, peAdj, epsAdj, dyAdj, specFundamentals, max_def, min_def]
  have hg : calculateGrowthScore specFundamentals = 7 := by
    norm_num [calculateGrowthScore, roeAdj, pmAdj, specFundamentals, max_def, min_def]
  have hs : calculateStabilityScore specFundamentals = 9 := by
    norm_num [calculateStabilityScore, dteAdj, crAdj, qrAdj, specFundamentals, max_def,
      min_def]
  simp only [calculateFundamentalScores, hv, hg, hs]
  norm_num [round1]

lemma flat_recommendationScore : recommendationScore flatData specFundamentals = 18/25 := by
  rw [recommendationScore, spec_overallScore, flat_priceChange, flat_rsiUsed]
  norm_num

lemma flat_recommendation : recommendationOf flatData specFundamentals = Rec.buy := by
  rw [recommendationOf]
  rw [flat_recommendationScore]
  norm_num

/-- C1 counterexample: on the flat 10-point sequence with the spec's
fundamentals the engine does not return HOLD (its composite score is
7.2/10 + 0 = 0.72 > 0.3, which maps to BUY). -/
theorem flat_sequence_not_hold :
    (generateRecommendation (some flatData) (some specFundamentals)).recommendation ≠
      Rec.hold := by
  show (mainResult flatData specFundamentals).recommendation ≠ Rec.hold
  simp only [mainResult]
  rw [flat_recommendation]
  simp

/-- C1 (amended): on the flat 10-point sequence the price change is 0 and
the RSI series is empty so the default 50 is used, but the recommendation is
BUY, not HOLD. -/
theorem flat_sequence_behavior :
    calculateRSI flatData 14 = [] ∧ rsiUsed flatData = 50 ∧
      priceChangeOf flatData = 0 ∧
      (generateRecommendation (some flatData) (some specFundamentals)).recommendation =
        Rec.buy := by
  refine ⟨flat_rsi_empty, flat_rsiUsed, flat_priceChange, ?_⟩
  show (mainResult flatData specFundamentals).recommendation = Rec.buy
  simp only [mainResult]
  exact flat_recommendation

end MarketGod
